import Mathlib

/-
Shallow embedding of the ukat quantitative-MRI mapping core:
  * ukat/mapping/t2.py  — T2 map fitting (mask building, sequential/parallel
    voxel fit scheduling, per-voxel bounded fit post-processing);
  * ukat/mapping/b0.py  — B0 field map from two phase volumes;
  * methods/tools.py    — phase range normalization (convert_to_pi_range).

Conventions of the embedding:
  * numpy floating-point values are modelled as exact rationals (ℚ); the
    floating constant np.pi is abstracted as an explicit parameter `piv`,
    np.sqrt as an explicit parameter `sqrtFn` (both are opaque numeric
    routines of the host library, not code of this repository);
  * a possibly-NaN signal sample is `Option ℚ` with `none` for NaN
    (np.isnan(np.sum(v)) is true exactly when some sample of v is NaN);
  * N-dimensional arrays are modelled flattened: a pixel array of spatial
    shape S with n_te echoes is a list of n_vox = prod S voxel rows, each a
    list of n_te samples, exactly the `pixel_array.reshape(-1, n_te)` /
    `mask.flatten()` view the scheduler itself works on; the B0 pixel array
    is modelled sliced along its last axis (`pixel_array[..., k]`), each
    slice a flattened spatial volume;
  * scipy.optimize.curve_fit and skimage unwrap_phase are external library
    calls, abstracted as parameters of the functions that invoke them;
  * paths on which the Python code raises are Except-valued: the B0
    validation ValueError, the TypeError the fit scheduler raises iterating
    the 0-D squeezed index array when exactly one voxel is to fit, and the
    ValueError its parallel branch raises unpacking the empty results list
    when no voxel is to fit;
  * Python in-place mutation of a caller-owned array is modelled by
    explicit state passing: the model returns the caller's array as it
    stands after the call, alongside the object state.
-/

namespace Ukat

/-- Per-voxel fit result, in the order T2.__fit_signal__ returns it:
(t2, t2_err, m0, m0_err). -/
structure FitResult where
  t2 : ℚ
  t2_err : ℚ
  m0 : ℚ
  m0_err : ℚ
deriving DecidableEq, Repr

/-- The all-zero fit result produced for failed or rejected fits. -/
def FitResult.zero : FitResult := ⟨0, 0, 0, 0⟩

/-- Whether a voxel time series contains a NaN sample: np.isnan applied to
np.sum(pixel_array, axis=-1) at this voxel is true exactly when some sample
is NaN (NaN propagates through the sum). -/
def hasNan (v : List (Option ℚ)) : Bool :=
  v.any (fun x => x.isNone)

/-- Mask building in T2.__init__: start from the caller mask (default all
True when none is given), then `self.mask[np.isnan(np.sum(pixel_array,
axis=-1))] = False` forces every NaN voxel to False. -/
def buildMask (callerMask : Option (List Bool))
    (pixel_array : List (List (Option ℚ))) : List Bool :=
  let m := callerMask.getD (List.replicate pixel_array.length true)
  List.zipWith (fun b v => if hasNan v then false else b) m pixel_array

/-- Indices of the voxels to process: np.argwhere on the flattened mask —
an array of shape (k, 1) holding the k indices where the mask is True, in
ascending order — modelled as that index list. The subsequent .squeeze()
is squeezeIdx below. -/
def maskedIdx (mask : List Bool) : List ℕ :=
  (List.range mask.length).filter (fun i => mask.getD i false)

/-- Result of np.argwhere(mask).squeeze(): squeeze drops every length-1
axis of the (k, 1) index array, so the result is the 1-D index array when
k ≠ 1, but a 0-D scalar when exactly one mask entry is True. -/
inductive SqueezedIdx where
  | zeroDim (i : ℕ)
  | oneDim (l : List ℕ)
deriving DecidableEq, Repr

/-- np.argwhere(mask).squeeze() applied to the flattened mask. -/
def squeezeIdx (mask : List Bool) : SqueezedIdx :=
  match maskedIdx mask with
  | [i] => .zeroDim i
  | l => .oneDim l

/-- The TypeError Python raises when a for-loop iterates a 0-D array. -/
def typeErrMsg : String := "iteration over a 0-d array"

/-- The ValueError Python raises when the parallel reassembly unpacks the
list built from zip of the results — empty when no task was submitted —
into the four map targets. -/
def valueErrMsg : String := "not enough values to unpack (expected 4, got 0)"

/-- The four output maps of T2.__fit__, flattened. -/
structure Maps where
  t2_map : List ℚ
  t2_err : List ℚ
  m0_map : List ℚ
  m0_err : List ℚ
deriving DecidableEq, Repr

/-- The zero-initialised maps (np.zeros(self.n_vox) four times). -/
def zeroMaps (n_vox : ℕ) : Maps :=
  ⟨List.replicate n_vox 0, List.replicate n_vox 0,
   List.replicate n_vox 0, List.replicate n_vox 0⟩

/-- Writing one voxel fit result back at its own index: the per-index
assignment `t2_map[ind], t2_err[ind], m0_map[ind], m0_err[ind] = ...`.
`fit` abstracts __fit_signal__ (signal row, echo list) ↦ FitResult. -/
def writeVoxel (fit : List (Option ℚ) → List ℚ → FitResult)
    (signal : List (List (Option ℚ))) (echo_list : List ℚ)
    (maps : Maps) (ind : ℕ) : Maps :=
  let r := fit (signal.getD ind []) echo_list
  ⟨maps.t2_map.set ind r.t2, maps.t2_err.set ind r.t2_err,
   maps.m0_map.set ind r.m0, maps.m0_err.set ind r.m0_err⟩

/-- Sequential path of T2.__fit__: iterate the squeezed index array in
ascending order, fitting each voxel and writing the result in place into
the zero-initialised maps. When exactly one voxel is to fit the squeezed
index array is 0-D and the for-loop itself raises TypeError, producing no
maps. -/
def t2FitSeq (fit : List (Option ℚ) → List ℚ → FitResult)
    (signal : List (List (Option ℚ))) (echo_list : List ℚ)
    (mask : List Bool) : Except String Maps :=
  match squeezeIdx mask with
  | .zeroDim _ => .error typeErrMsg
  | .oneDim l =>
      .ok (l.foldl (writeVoxel fit signal echo_list)
        (zeroMaps signal.length))

/-- Parallel path of T2.__fit__: one independent task per masked voxel is
submitted to the process pool; each task is identified by its voxel index
and its result is written back at that index. `order` is the order in
which task results are incorporated (the pool completion order); any
permutation of the masked indices is a possible order. As in the
sequential path, a 0-D squeezed index array makes the submission for-loop
raise TypeError; and when no task was submitted, unpacking the empty
results list into the four map targets raises ValueError. -/
def t2FitPar (fit : List (Option ℚ) → List ℚ → FitResult)
    (signal : List (List (Option ℚ))) (echo_list : List ℚ)
    (mask : List Bool) (order : List ℕ) : Except String Maps :=
  match squeezeIdx mask with
  | .zeroDim _ => .error typeErrMsg
  | .oneDim [] => .error valueErrMsg
  | .oneDim _ =>
      .ok (order.foldl (writeVoxel fit signal echo_list)
        (zeroMaps signal.length))

/-- The multithread argument of T2.__init__: Python True, False or 'auto'. -/
inductive MultithreadArg where
  | yes
  | no
  | auto
deriving DecidableEq, Repr

/-- Resolution of the multithread argument in T2.__init__: 'auto' becomes
True exactly when `self.n_vox > 20`, where n_vox = np.prod(self.shape) is
the total number of voxels of the map (the product of all spatial
dimensions), irrespective of the mask. -/
def resolveMultithread (multithread : MultithreadArg) (n_vox : ℕ) : Bool :=
  match multithread with
  | .yes => true
  | .no => false
  | .auto => decide (20 < n_vox)

/-- Mask handling of T2.__init__ with Python reference semantics made
explicit: `self.mask = mask` stores a reference to the caller's array, and
`self.mask[np.isnan(...)] = False` then writes through that reference.
Returns (self.mask, the caller's array as it stands after the call). When
no mask is supplied a fresh all-True array is allocated and the caller has
nothing that aliases it. -/
def t2InitMask (callerMask : Option (List Bool))
    (pixel_array : List (List (Option ℚ))) :
    List Bool × Option (List Bool) :=
  match callerMask with
  | none => (buildMask none pixel_array, none)
  | some m =>
      let m2 := buildMask (some m) pixel_array
      (m2, some m2)

/-- Outcome of the scipy curve_fit call in T2.__fit_signal__: either the
optimizer returns (popt, pcov) — here popt = (p0, p1) and the diagonal of
pcov = (v0, v1), the only entries the caller reads — or it raises
RuntimeError (failure to converge). -/
inductive CurveFitOutcome where
  | ok (p0 p1 v0 v1 : ℚ)
  | runtimeError
deriving DecidableEq, Repr

/-- Post-processing common to both branches of T2.__fit_signal__: with
bounds = ([0, 0], [700, 1000000]), accept the fit when
popt[0] < bounds[1][0] - 1, taking the errors as np.sqrt of the diagonal of
pcov; otherwise force all four outputs to zero. `sqrtFn` abstracts
np.sqrt. -/
def fitSignalPost (sqrtFn : ℚ → ℚ) (p0 p1 v0 v1 : ℚ) : FitResult :=
  if p0 < 700 - 1 then
    ⟨p0, sqrtFn v0, p1, sqrtFn v1⟩
  else
    FitResult.zero

/-- T2.__fit_signal__: run the optimizer (abstracted as `curveFit`, a pure
function of the signal row and the echo list); on RuntimeError substitute
popt = np.zeros(2) and pcov = np.zeros((2, 2)); then post-process. -/
def fitSignal (sqrtFn : ℚ → ℚ)
    (curveFit : List (Option ℚ) → List ℚ → CurveFitOutcome)
    (sig : List (Option ℚ)) (te : List ℚ) : FitResult :=
  match curveFit sig te with
  | .runtimeError => fitSignalPost sqrtFn 0 0 0 0
  | .ok p0 p1 v0 v1 => fitSignalPost sqrtFn p0 p1 v0 v1

/-- np.amax of a (nonempty) array, modelled on lists. -/
def amax (a : List ℚ) : ℚ :=
  a.foldl max (a.headD 0)

/-- np.amin of a (nonempty) array, modelled on lists. -/
def amin (a : List ℚ) : ℚ :=
  a.foldl min (a.headD 0)

/-- convert_to_pi_range from methods/tools.py: when np.amax > 3.2 and
np.amin < -3.2 (3.2 is used instead of np.pi to give some margin), map each
value x to 2*pi*(x - min)/(max - min) - pi; otherwise return the array
unchanged. `piv` abstracts the floating constant np.pi. -/
def convert_to_pi_range (piv : ℚ) (pixel_array : List ℚ) : List ℚ :=
  if 16 / 5 < amax pixel_array ∧ amin pixel_array < -(16 / 5) then
    pixel_array.map (fun x =>
      2 * piv * (x - amin pixel_array) / (amax pixel_array - amin pixel_array)
        - piv)
  else
    pixel_array

/-- The linear rescaling of the observed [min, max] onto [-pi, pi] that the
specification describes, as a standalone map (the formula of the rescale
branch). -/
def piRangeRescale (piv : ℚ) (pixel_array : List ℚ) : List ℚ :=
  pixel_array.map (fun x =>
    2 * piv * (x - amin pixel_array) / (amax pixel_array - amin pixel_array)
      - piv)

/-- A numpy masked array: data plus the mask of invalid entries (True =
masked out / excluded from masked operations). -/
structure MaskedImage where
  data : List ℚ
  invalid : List Bool
deriving DecidableEq, Repr

/-- The attributes B0.__init__ computes on the accepted path. -/
structure B0Result where
  delta_te : ℚ
  phase0 : MaskedImage
  phase1 : MaskedImage
  phase_difference : List ℚ
  b0_map : List ℚ
deriving DecidableEq, Repr

/-- The ValueError message raised by B0.__init__. -/
def b0ErrMsg : String :=
  "The input should contain 2 echo times." ++
  "The last dimension of the input pixel_array must" ++
  "be 2 and the echo_list must only have 2 values."

/-- B0.__init__ (field-map path). `volumes` is the pixel array sliced along
its last axis: volumes[k] models the flattened spatial volume
pixel_array[..., k], so n_te = volumes.length. `unwrapFn` abstracts
skimage unwrap_phase (argument order: wrap_around flag, then data); it acts
on the data of a masked array and leaves the mask unchanged. Validation:
proceed only when n_te == len(echo_list) and n_te == 2, else raise
ValueError. On the accepted path: delta_te = |echo1 - echo0| * 0.001; each
phase volume is passed through convert_to_pi_range and then wrapped as
np.ma.masked_array(..., mask=mask) — with mask=None no entry is masked;
optionally unwrapped; phase_difference = phase1 - phase0; and
b0_map = phase_difference / (2 * pi * delta_te). -/
def b0Init (piv : ℚ) (unwrapFn : Bool → List ℚ → List ℚ)
    (volumes : List (List ℚ)) (echo_list : List ℚ)
    (mask : Option (List Bool)) (unwrap : Bool) (wrap_around : Bool) :
    Except String B0Result :=
  let n_te := volumes.length
  if n_te = echo_list.length ∧ n_te = 2 then
    let echo0 := echo_list.getD 0 0
    let echo1 := echo_list.getD 1 0
    let delta_te := |echo1 - echo0| * (1 / 1000)
    let vol0 := volumes.getD 0 []
    let vol1 := volumes.getD 1 []
    let pmask := mask.getD (List.replicate vol0.length false)
    let phase0 : MaskedImage := ⟨convert_to_pi_range piv vol0, pmask⟩
    let phase1 : MaskedImage := ⟨convert_to_pi_range piv vol1, pmask⟩
    let phase0 :=
      if unwrap then { phase0 with data := unwrapFn wrap_around phase0.data }
      else phase0
    let phase1 :=
      if unwrap then { phase1 with data := unwrapFn wrap_around phase1.data }
      else phase1
    let phase_difference :=
      List.zipWith (fun a b => a - b) phase1.data phase0.data
    let b0_map := phase_difference.map (fun x => x / (2 * piv * delta_te))
    .ok ⟨delta_te, phase0, phase1, phase_difference, b0_map⟩
  else
    .error b0ErrMsg

/- Batteries marks the Rat arithmetic operations irreducible; unseal them
for this development so that concrete instances of the definitions above
evaluate by decide. -/
attribute [local semireducible] Rat.mul Rat.add Rat.sub Rat.inv Rat.ofScientific

/-- Writing two voxel results commutes: the two writes target distinct
indices (List.set commutes there), or the same index, where both writes
store the same value, the one determined by that voxel's own signal. -/
theorem writeVoxel_comm (fit : List (Option ℚ) → List ℚ → FitResult)
    (signal : List (List (Option ℚ))) (echo_list : List ℚ)
    (maps : Maps) (a b : ℕ) :
    writeVoxel fit signal echo_list (writeVoxel fit signal echo_list maps a) b
      = writeVoxel fit signal echo_list
          (writeVoxel fit signal echo_list maps b) a := by
  by_cases hab : a = b
  · subst hab; rfl
  · simp only [writeVoxel, Maps.mk.injEq]
    exact ⟨List.set_comm _ _ _ hab, List.set_comm _ _ _ hab,
      List.set_comm _ _ _ hab, List.set_comm _ _ _ hab⟩

/-- Folding the per-voxel writes over any permutation of the task list
yields the same maps. -/
theorem foldl_writeVoxel_perm (fit : List (Option ℚ) → List ℚ → FitResult)
    (signal : List (List (Option ℚ))) (echo_list : List ℚ)
    {l₁ l₂ : List ℕ} (p : l₁.Perm l₂) :
    ∀ maps : Maps,
      l₁.foldl (writeVoxel fit signal echo_list) maps
        = l₂.foldl (writeVoxel fit signal echo_list) maps := by
  induction p with
  | nil => intro maps; rfl
  | cons x _ ih => intro maps; simp only [List.foldl_cons]; exact ih _
  | swap x y l => intro maps; simp only [List.foldl_cons, writeVoxel_comm]
  | trans _ _ ih₁ ih₂ => intro maps; rw [ih₁, ih₂]

/-- C1 counterexample: at an input whose effective mask is all False, the
sequential path of T2.__fit__ returns the all-zero maps (its loop over the
empty index array runs no iteration) while the parallel path raises
ValueError unpacking the empty results list into the four map targets, so
the two execution paths are not identical for every fixed input. -/
theorem t2_seq_par_differ_empty_mask :
    t2FitSeq (fun _ _ => FitResult.zero) [[some 1]] [10] [false]
        = .ok (zeroMaps 1)
      ∧ t2FitPar (fun _ _ => FitResult.zero) [[some 1]] [10] [false] []
          = .error valueErrMsg
      ∧ t2FitSeq (fun _ _ => FitResult.zero) [[some 1]] [10] [false]
          ≠ t2FitPar (fun _ _ => FitResult.zero) [[some 1]] [10] [false]
            [] := by
  refine ⟨rfl, rfl, fun h => ?_⟩
  exact Except.noConfusion
    (show (Except.ok (zeroMaps 1) : Except String Maps)
      = .error valueErrMsg from h)

/-- C1 amended: for every input with at least one masked voxel, the
parallel path of T2.__fit__ has exactly the sequential path's outcome,
whatever the order in which the pool completes the per-voxel tasks: the
identical four output maps when two or more voxels are fit (each task's
result is written back at that task's own voxel index), and the identical
TypeError from iterating the 0-D squeezed index array when exactly one
voxel is to fit. With zero masked voxels the two paths differ, as the
counterexample shows. -/
theorem t2_parallel_matches_sequential
    (fit : List (Option ℚ) → List ℚ → FitResult)
    (signal : List (List (Option ℚ))) (echo_list : List ℚ)
    (mask : List Bool) (order : List ℕ)
    (h : order.Perm (maskedIdx mask)) (hne : maskedIdx mask ≠ []) :
    t2FitPar fit signal echo_list mask order
      = t2FitSeq fit signal echo_list mask := by
  cases hm : maskedIdx mask with
  | nil => exact absurd hm hne
  | cons i t =>
      cases t with
      | nil =>
          simp only [t2FitPar, t2FitSeq, squeezeIdx, hm]
      | cons j t2 =>
          rw [hm] at h
          simp only [t2FitPar, t2FitSeq, squeezeIdx, hm]
          exact congrArg Except.ok
            (foldl_writeVoxel_perm fit signal echo_list h _)

theorem t2_parallel_matches_sequential_witness :
    t2FitPar (fun s _ => ⟨(s.headD (some 0)).getD 0, 0, 0, 0⟩)
        [[some 1], [some 2], [some 3]] [10] [true, false, true] [2, 0]
      = t2FitSeq (fun s _ => ⟨(s.headD (some 0)).getD 0, 0, 0, 0⟩)
        [[some 1], [some 2], [some 3]] [10] [true, false, true] :=
  t2_parallel_matches_sequential _ _ _ _ _ (by decide) (by decide)

/-- C2 counterexample: with a 21-voxel pixel array whose caller mask keeps
only a single voxel, T2.__init__ resolves multithread='auto' from
self.n_vox, the total voxel count (21 > 20 gives parallel), while the
masked-voxel count is 1 ≤ 20, for which the claim demands sequential. -/
theorem t2_auto_ignores_masked_count :
    resolveMultithread .auto (List.replicate 21 [some (0 : ℚ)]).length = true
      ∧ (maskedIdx (buildMask (some (true :: List.replicate 20 false))
          (List.replicate 21 [some (0 : ℚ)]))).length = 1
      ∧ (1 : ℕ) ≤ 20 := by
  decide

/-- C2 amended: multithread='auto' resolves to parallel exactly when the
total number of voxels of the map (self.n_vox, the product of the spatial
dimensions, irrespective of the mask) exceeds 20, and to sequential when
that total is at most 20. -/
theorem t2_auto_threshold_total_voxels (n_vox : ℕ) :
    (20 < n_vox → resolveMultithread .auto n_vox = true)
      ∧ (n_vox ≤ 20 → resolveMultithread .auto n_vox = false) := by
  constructor <;> intro h <;>
    simp [resolveMultithread, decide_eq_true_eq, decide_eq_false_iff_not] <;>
    omega

theorem t2_auto_threshold_total_voxels_witness :
    resolveMultithread .auto 21 = true
      ∧ resolveMultithread .auto 20 = false :=
  ⟨(t2_auto_threshold_total_voxels 21).1 (by decide),
   (t2_auto_threshold_total_voxels 20).2 (by decide)⟩

/-- C3: for every voxel signal and echo schedule, T2.__fit_signal__ (with
the optimizer abstracted as the pure function `curveFit` and np.sqrt as
`sqrtFn`, which sends 0 to 0 as np.sqrt does) returns the all-zero
FitResult when the optimizer raises RuntimeError, and also when it
converges with fitted T2 at or above 700 - 1 = 699; otherwise it returns
the fitted parameters with errors sqrtFn of the diagonal of the covariance
matrix. No error propagates in any case: the function is total. -/
theorem fit_signal_failure_and_rejection (sqrtFn : ℚ → ℚ)
    (hs : sqrtFn 0 = 0)
    (curveFit : List (Option ℚ) → List ℚ → CurveFitOutcome)
    (sig : List (Option ℚ)) (te : List ℚ) :
    (curveFit sig te = .runtimeError →
        fitSignal sqrtFn curveFit sig te = FitResult.zero)
      ∧ (∀ p0 p1 v0 v1, curveFit sig te = .ok p0 p1 v0 v1 → 700 - 1 ≤ p0 →
          fitSignal sqrtFn curveFit sig te = FitResult.zero)
      ∧ (∀ p0 p1 v0 v1, curveFit sig te = .ok p0 p1 v0 v1 → p0 < 700 - 1 →
          fitSignal sqrtFn curveFit sig te = ⟨p0, sqrtFn v0, p1, sqrtFn v1⟩)
    := by
  refine ⟨?_, ?_, ?_⟩
  · intro h
    simp only [fitSignal, h, fitSignalPost]
    rw [if_pos (by norm_num), hs]
    rfl
  · intro p0 p1 v0 v1 h hge
    simp only [fitSignal, h, fitSignalPost]
    rw [if_neg (not_lt.mpr hge)]
  · intro p0 p1 v0 v1 h hlt
    simp only [fitSignal, h, fitSignalPost]
    rw [if_pos hlt]

theorem fit_signal_failure_and_rejection_witness :
    fitSignal (fun x => x) (fun _ _ => .runtimeError) [] [] = FitResult.zero
      ∧ fitSignal (fun x => x) (fun _ _ => .ok 699 5 1 1) [] []
          = FitResult.zero
      ∧ fitSignal (fun x => x) (fun _ _ => .ok 50 5000 4 9) [] []
          = ⟨50, 4, 5000, 9⟩ :=
  ⟨(fit_signal_failure_and_rejection (fun x => x) rfl _ [] []).1 rfl,
   (fit_signal_failure_and_rejection (fun x => x) rfl _ [] []).2.1
     699 5 1 1 rfl (by norm_num),
   (fit_signal_failure_and_rejection (fun x => x) rfl _ [] []).2.2
     50 5000 4 9 rfl (by norm_num)⟩

/-- C7 counterexample: the array [0, 10] has its maximum above the 3.2
envelope threshold (its range spans outside [-pi, pi]), yet
convert_to_pi_range returns it unchanged instead of rescaling it onto
[-pi, pi]: the code rescales only when the maximum exceeds 3.2 AND the
minimum is below -3.2, not whenever the range spans outside the envelope
on either side. (Evaluated at piv = 3; any value of the pi constant gives
the same unchanged output.) -/
theorem convert_to_pi_range_one_sided_unchanged :
    16 / 5 < amax [0, 10]
      ∧ convert_to_pi_range 3 [0, 10] = [0, 10]
      ∧ convert_to_pi_range 3 [0, 10] ≠ piRangeRescale 3 [0, 10] := by
  decide

/-- C7 amended: convert_to_pi_range is total and returns the array
unchanged whenever its range is within the approximate envelope
(max ≤ 3.2 and min ≥ -3.2); it rescales the observed [min, max] onto
[-pi, pi] exactly when the maximum exceeds 3.2 AND the minimum is below
-3.2; an array exceeding the envelope on one side only is returned
unchanged. -/
theorem convert_to_pi_range_total_behavior (piv : ℚ) (a : List ℚ) :
    (amax a ≤ 16 / 5 ∧ -(16 / 5) ≤ amin a →
        convert_to_pi_range piv a = a)
      ∧ (16 / 5 < amax a ∧ amin a < -(16 / 5) →
          convert_to_pi_range piv a = piRangeRescale piv a)
      ∧ (amax a ≤ 16 / 5 ∨ -(16 / 5) ≤ amin a →
          convert_to_pi_range piv a = a) := by
  refine ⟨?_, ?_, ?_⟩
  · rintro ⟨h1, _⟩
    rw [convert_to_pi_range, if_neg]
    rintro ⟨hc1, _⟩
    exact absurd hc1 (not_lt.mpr h1)
  · intro h
    rw [convert_to_pi_range, if_pos h]
    rfl
  · intro h
    rw [convert_to_pi_range, if_neg]
    rintro ⟨hc1, hc2⟩
    rcases h with h | h
    · exact absurd hc1 (not_lt.mpr h)
    · exact absurd hc2 (not_lt.mpr h)

theorem convert_to_pi_range_total_behavior_witness :
    convert_to_pi_range 3 [1] = [1]
      ∧ convert_to_pi_range 3 [4, -4] = piRangeRescale 3 [4, -4]
      ∧ convert_to_pi_range 3 [0, 10] = [0, 10] :=
  ⟨(convert_to_pi_range_total_behavior 3 [1]).1 (by decide),
   (convert_to_pi_range_total_behavior 3 [4, -4]).2.1 (by decide),
   (convert_to_pi_range_total_behavior 3 [0, 10]).2.2 (Or.inr (by decide))⟩

/-- C9: T2.__init__ stores a reference to a caller-supplied mask
(self.mask = mask, no copy) and then assigns False in place at every NaN
voxel, writing through that reference; after the call the caller's own
array is the engine's updated mask, so it may differ from the array the
caller passed in — as at the concrete input where an all-True single-entry
mask is flipped to False by a NaN voxel. -/
theorem t2_caller_mask_mutated (m : List Bool)
    (pixel_array : List (List (Option ℚ))) :
    (t2InitMask (some m) pixel_array).2
        = some ((t2InitMask (some m) pixel_array).1)
      ∧ (t2InitMask (some m) pixel_array).1 = buildMask (some m) pixel_array
      ∧ (t2InitMask (some [true]) [[none]]).2 ≠ some [true] :=
  ⟨rfl, rfl, by decide⟩

/-- C5: B0.__init__ raises its ValueError — and constructs no field-map
output — unless the pixel array carries exactly two volumes along its last
axis and exactly two echo times are supplied (so supplying 1 or 3 of
either errors out); with both counts equal to 2 it returns the computed
attributes. -/
theorem b0_requires_exactly_two_echoes (piv : ℚ)
    (unwrapFn : Bool → List ℚ → List ℚ) (volumes : List (List ℚ))
    (echo_list : List ℚ) (mask : Option (List Bool))
    (unwrap wrap_around : Bool) :
    (¬(volumes.length = 2 ∧ echo_list.length = 2) →
        b0Init piv unwrapFn volumes echo_list mask unwrap wrap_around
          = .error b0ErrMsg)
      ∧ ((volumes.length = 2 ∧ echo_list.length = 2) →
          ∃ r, b0Init piv unwrapFn volumes echo_list mask unwrap wrap_around
            = .ok r) := by
  constructor
  · intro h
    have hc : ¬(volumes.length = echo_list.length
        ∧ volumes.length = 2) := by
      rintro ⟨h1, h2⟩
      exact h ⟨h2, h1 ▸ h2⟩
    simp only [b0Init]
    rw [if_neg hc]
  · rintro ⟨h1, h2⟩
    have hc : volumes.length = echo_list.length ∧ volumes.length = 2 :=
      ⟨h1.trans h2.symm, h1⟩
    simp only [b0Init, if_pos hc]
    exact ⟨_, rfl⟩

theorem b0_requires_exactly_two_echoes_witness :
    b0Init 3 (fun _ d => d) [[0]] [1] none true false = .error b0ErrMsg
      ∧ b0Init 3 (fun _ d => d) [[0], [0], [0]] [1, 2, 3] none true false
          = .error b0ErrMsg
      ∧ ∃ r, b0Init 3 (fun _ d => d) [[0], [0]] [1, 2] none true false
          = .ok r :=
  ⟨(b0_requires_exactly_two_echoes 3 (fun _ d => d) [[0]] [1] none true
      false).1 (by decide),
   (b0_requires_exactly_two_echoes 3 (fun _ d => d) [[0], [0], [0]]
      [1, 2, 3] none true false).1 (by decide),
   (b0_requires_exactly_two_echoes 3 (fun _ d => d) [[0], [0]] [1, 2] none
      true false).2 (by decide)⟩

/-- C6: on every input the field-map path accepts (two phase volumes, two
echo times in milliseconds), the attributes it returns satisfy:
delta_te = |echo1 - echo0| * 0.001 (seconds); phase_difference = the
second processed phase minus the first, elementwise; and
b0_map = phase_difference / (2 * pi * delta_te), elementwise, in Hz. -/
theorem b0_field_map_formula (piv : ℚ) (unwrapFn : Bool → List ℚ → List ℚ)
    (v0 v1 : List ℚ) (e0 e1 : ℚ) (mask : Option (List Bool))
    (unwrap wrap_around : Bool) (r : B0Result)
    (h : b0Init piv unwrapFn [v0, v1] [e0, e1] mask unwrap wrap_around
        = .ok r) :
    r.delta_te = |e1 - e0| * (1 / 1000)
      ∧ r.phase_difference
          = List.zipWith (fun a b => a - b) r.phase1.data r.phase0.data
      ∧ r.b0_map
          = r.phase_difference.map (fun x => x / (2 * piv * r.delta_te))
    := by
  simp only [b0Init] at h
  rw [if_pos ⟨rfl, rfl⟩] at h
  injection h with h
  subst h
  exact ⟨rfl, rfl, rfl⟩

theorem b0_field_map_formula_witness :
    ((⟨1 / 1000, ⟨[0], [false]⟩, ⟨[1], [false]⟩, [1],
        [500 / 3]⟩ : B0Result).delta_te = |(2 : ℚ) - 1| * (1 / 1000))
      ∧ ((⟨1 / 1000, ⟨[0], [false]⟩, ⟨[1], [false]⟩, [1],
          [500 / 3]⟩ : B0Result).phase_difference
            = List.zipWith (fun a b => a - b)
              (⟨1 / 1000, ⟨[0], [false]⟩, ⟨[1], [false]⟩, [1],
                [500 / 3]⟩ : B0Result).phase1.data
              (⟨1 / 1000, ⟨[0], [false]⟩, ⟨[1], [false]⟩, [1],
                [500 / 3]⟩ : B0Result).phase0.data)
      ∧ ((⟨1 / 1000, ⟨[0], [false]⟩, ⟨[1], [false]⟩, [1],
          [500 / 3]⟩ : B0Result).b0_map
            = (⟨1 / 1000, ⟨[0], [false]⟩, ⟨[1], [false]⟩, [1],
                [500 / 3]⟩ : B0Result).phase_difference.map
              (fun x => x / (2 * 3 *
                (⟨1 / 1000, ⟨[0], [false]⟩, ⟨[1], [false]⟩, [1],
                  [500 / 3]⟩ : B0Result).delta_te))) :=
  b0_field_map_formula 3 (fun _ d => d) [0] [1] 1 2 none true false
    ⟨1 / 1000, ⟨[0], [false]⟩, ⟨[1], [false]⟩, [1], [500 / 3]⟩ rfl

/-- C8: a pair of identical phase volumes (elementwise phase difference 0)
accepted by the field-map path yields a field map that is 0 at every
position, for every pair of echo times — division of the zero difference
by 2 * pi * delta_te gives 0 regardless of delta_te (the model divides in
exact rational arithmetic, where 0 / c = 0 for every c). -/
theorem b0_identical_phases_zero_map (piv : ℚ)
    (unwrapFn : Bool → List ℚ → List ℚ) (v : List ℚ) (e0 e1 : ℚ)
    (mask : Option (List Bool)) (unwrap wrap_around : Bool) (r : B0Result)
    (h : b0Init piv unwrapFn [v, v] [e0, e1] mask unwrap wrap_around
        = .ok r) :
    ∀ x ∈ r.b0_map, x = 0 := by
  simp only [b0Init] at h
  rw [if_pos ⟨rfl, rfl⟩] at h
  injection h with h
  subst h
  intro x hx
  simp only [List.getD_cons_zero, List.getD_cons_succ] at hx
  rw [List.zipWith_same] at hx
  simp only [List.map_map, List.mem_map, Function.comp] at hx
  obtain ⟨a, -, rfl⟩ := hx
  simp

theorem b0_identical_phases_zero_map_witness :
    b0Init 3 (fun _ d => d) [[5], [5]] [1, 3] none true false
        = .ok ⟨1 / 500, ⟨[5], [false]⟩, ⟨[5], [false]⟩, [0], [0]⟩
      ∧ (0 : ℚ) = 0 := by
  have h : b0Init 3 (fun _ d => d) [[5], [5]] [1, 3] none true false
      = .ok ⟨1 / 500, ⟨[5], [false]⟩, ⟨[5], [false]⟩, [0], [0]⟩ := rfl
  exact ⟨h, b0_identical_phases_zero_map 3 (fun _ d => d) [5] 1 3 none true
    false _ h 0 (by decide)⟩

/-- C10: on the field-map path, when a caller supplies a boolean mask m,
both phase images are built as numpy masked arrays whose invalid
(masked-out) entries are exactly the positions where m is True — the
positions m marks as voxels to fit are the ones the masked arrays exclude
— and when no mask is supplied, no position of either phase image is
masked. -/
theorem b0_masked_entries_are_mask_true (piv : ℚ)
    (unwrapFn : Bool → List ℚ → List ℚ) (volumes : List (List ℚ))
    (echo_list : List ℚ) (unwrap wrap_around : Bool) :
    (∀ (m : List Bool) (r : B0Result),
        b0Init piv unwrapFn volumes echo_list (some m) unwrap wrap_around
            = .ok r →
          r.phase0.invalid = m ∧ r.phase1.invalid = m)
      ∧ (∀ r : B0Result,
          b0Init piv unwrapFn volumes echo_list none unwrap wrap_around
              = .ok r →
            r.phase0.invalid
                = List.replicate (volumes.getD 0 []).length false
              ∧ r.phase1.invalid
                = List.replicate (volumes.getD 0 []).length false) := by
  constructor
  · intro m r h
    simp only [b0Init] at h
    by_cases hc : volumes.length = echo_list.length ∧ volumes.length = 2
    · rw [if_pos hc] at h
      injection h with h
      subst h
      constructor <;> cases unwrap <;> rfl
    · rw [if_neg hc] at h
      simp at h
  · intro r h
    simp only [b0Init] at h
    by_cases hc : volumes.length = echo_list.length ∧ volumes.length = 2
    · rw [if_pos hc] at h
      injection h with h
      subst h
      constructor <;> cases unwrap <;> rfl
    · rw [if_neg hc] at h
      simp at h

theorem b0_masked_entries_are_mask_true_witness :
    ((⟨1 / 1000, ⟨[7], [true]⟩, ⟨[7], [true]⟩, [0],
          [0]⟩ : B0Result).phase0.invalid = [true]
        ∧ (⟨1 / 1000, ⟨[7], [true]⟩, ⟨[7], [true]⟩, [0],
            [0]⟩ : B0Result).phase1.invalid = [true])
      ∧ ((⟨1 / 1000, ⟨[7], [false]⟩, ⟨[7], [false]⟩, [0],
            [0]⟩ : B0Result).phase0.invalid
              = List.replicate ([(7 : ℚ)]).length false
          ∧ (⟨1 / 1000, ⟨[7], [false]⟩, ⟨[7], [false]⟩, [0],
              [0]⟩ : B0Result).phase1.invalid
                = List.replicate ([(7 : ℚ)]).length false) :=
  ⟨(b0_masked_entries_are_mask_true 3 (fun _ d => d) [[7], [7]] [1, 2]
      false false).1 [true]
      ⟨1 / 1000, ⟨[7], [true]⟩, ⟨[7], [true]⟩, [0], [0]⟩ rfl,
   (b0_masked_entries_are_mask_true 3 (fun _ d => d) [[7], [7]] [1, 2]
      false false).2
      ⟨1 / 1000, ⟨[7], [false]⟩, ⟨[7], [false]⟩, [0], [0]⟩ rfl⟩

end Ukat
